import Mathlib

/-!
Verification development for the script download_inaturalist_images.py
(repository ggi-gardens-photos).

The script is a sequential batch pipeline:
  1. read observations.csv and extract the id column (fail fast when the
     file is missing);
  2. for the observation ids in the slice positions 10 to 19, query the
     iNaturalist API, merge each photo wrapper with its nested photo
     object, and derive original_size_url from large_url by the Python
     substitution replace of the text large with the text original;
  3. build a pandas DataFrame from the accumulated records, project it
     onto a fixed allow-list of 15 columns, rename a subset, write it out;
  4. ensure an images directory exists, then walk the same record sequence
     and download each record with a truthy original_size_url to a path
     built from observation_id and id.

The embedding below models JSON values, Python dict operations with
insertion order, the Python str.replace scan, the pandas construction
from a list of dicts (columns are the union of keys in first-seen order,
a record missing a key yields a missing cell, and column selection fails
only when a requested column is absent from that union), and the whole
run as a pure function of the input file contents, the HTTP responses
and the pre-existing filesystem state.
-/

set_option autoImplicit false
set_option maxRecDepth 100000

namespace GGI

/-- JSON-like values as decoded by the json call of the requests library:
null, numbers, strings, arrays and objects (objects keep insertion
order, as Python dicts do). Floats do not occur in the fields this
script touches, so numbers are integers. -/
inductive Val where
  | vnull : Val
  | vnum : Int → Val
  | vstr : String → Val
  | vlist : List Val → Val
  | vdict : List (String × Val) → Val

/-- A Python dict with string keys, in insertion order. -/
abbrev Dict := List (String × Val)

/-- First binding of a key, modelling Python dict access. The construction
below keeps keys unique, so first match is the binding. -/
def lookupKey : Dict → String → Option Val
  | [], _ => none
  | (k', v) :: rest, k => if k' = k then some v else lookupKey rest k

/-- The Python d.get(k, dflt) access with a default. -/
def getD (d : Dict) (k : String) (dflt : Val) : Val :=
  (lookupKey d k).getD dflt

/-- Setting a key in a Python dict: an existing key keeps its position and
gets the new value, a new key is appended at the end. -/
def setKey (k : String) (v : Val) : Dict → Dict
  | [] => [(k, v)]
  | (k', v') :: rest => if k' = k then (k, v) :: rest else (k', v') :: setKey k v rest

/-- The Python d.update(entries) call: the entries are written into d one
after the other, later bindings overwriting earlier ones. -/
def dictUpdate (d : Dict) (entries : Dict) : Dict :=
  entries.foldl (fun acc kv => setKey kv.1 kv.2 acc) d

/-- One scanning step list of the Python replace method on strings: scan
left to right, replace each non-overlapping occurrence of the pattern,
resume after the replaced text. The fuel argument bounds the recursion
by the length of the scanned text; each step consumes at least one
character, so fuel equal to the length is enough. -/
def replAux (pat rep : List Char) : Nat → List Char → List Char
  | 0, s => s
  | _ + 1, [] => []
  | fuel + 1, c :: rest =>
    if pat.isPrefixOf (c :: rest) then
      rep ++ replAux pat rep fuel (List.drop (pat.length - 1) rest)
    else
      c :: replAux pat rep fuel rest

/-- The Python expression s.replace(pat, rep) for a non-empty pattern. -/
def pyReplace (s pat rep : String) : String :=
  String.mk (replAux pat.data rep.data s.data.length s.data)

/-- Building one photo record, from the body of the inner loop
(lines 41 to 43 of the script): start from the wrapper's
observation_id, merge in the nested photo object, then derive
original_size_url from large_url with the large to original
substitution. The result is none where Python would raise: when the
photo key holds a non-dict value, or when the merged large_url value
is present but not a string (replace is a string method). -/
def mkPhotoData (photo : Dict) : Option Dict :=
  match getD photo "photo" (Val.vdict []) with
  | Val.vdict nested =>
    let pd : Dict := [("observation_id", getD photo "observation_id" Val.vnull)]
    let pd := dictUpdate pd nested
    match getD pd "large_url" (Val.vstr "") with
    | Val.vstr s =>
      some (setKey "original_size_url" (Val.vstr (pyReplace s "large" "original")) pd)
    | _ => none
  | _ => none

example :
    mkPhotoData [("observation_id", Val.vnum 7),
      ("photo", Val.vdict [("id", Val.vnum 5), ("large_url", Val.vstr "https://x/large.jpg")])] =
    some [("observation_id", Val.vnum 7), ("id", Val.vnum 5),
      ("large_url", Val.vstr "https://x/large.jpg"),
      ("original_size_url", Val.vstr "https://x/original.jpg")] := rfl

example : pyReplace "https://x/large.jpg" "large" "original" = "https://x/original.jpg" := rfl

example : pyReplace "largelargexlarge" "large" "original" = "originaloriginalxoriginal" := rfl

/-- The request URL for one observation id (line 37 of the script). -/
def mkUrl (idno : Int) : String :=
  "https://www.inaturalist.org/observations/" ++ toString idno ++ ".json"

/-- The Python slice l[a:b] for non-negative bounds. -/
def pySlice (a b : Nat) {α : Type} (l : List α) : List α :=
  (l.drop a).take (b - a)

/-- Processing one API response (lines 38 to 44): the body must be a JSON
object, observation_photos defaults to an empty list, and every entry
must be an object fed to mkPhotoData. none models the unhandled
exceptions the script would raise on a malformed body. -/
def processResponse (r : Val) : Option (List Dict) :=
  match r with
  | Val.vdict body =>
    match getD body "observation_photos" (Val.vlist []) with
    | Val.vlist photos =>
      photos.mapM (fun p =>
        match p with
        | Val.vdict photo => mkPhotoData photo
        | _ => none)
    | _ => none
  | _ => none

/-- The fetch loop over a list of observation ids: each iteration issues
one request (first component: the URLs requested, in order) and
accumulates the photo records. A malformed response stops the loop
(the script would die on the raised exception), so the issued requests
are a prefix of the full request list and no records are produced. -/
def fetchLoop (resp : Int → Val) : List Int → List String × Option (List Dict)
  | [] => ([], some [])
  | idno :: rest =>
    match processResponse (resp idno) with
    | none => ([mkUrl idno], none)
    | some photos =>
      let r := fetchLoop resp rest
      (mkUrl idno :: r.1, r.2.map (fun imgs => photos ++ imgs))

/-- The whole fetch phase (lines 35 to 45): the loop runs over the slice
obs_ids[10:20], not over the full id list. -/
def fetchImages (resp : Int → Val) (obs_ids : List Int) : List String × Option (List Dict) :=
  fetchLoop resp (pySlice 10 20 obs_ids)

/-! ### The pandas fragment used by the export phase -/

/-- Keys of one record, in insertion order. -/
def recordKeys (r : Dict) : List String := r.map Prod.fst

/-- Append a key when it is not present yet. -/
def addKey (acc : List String) (k : String) : List String :=
  if k ∈ acc then acc else acc ++ [k]

/-- Column labels of pandas DataFrame(list_of_dicts): the union of the
record keys, ordered by first appearance. -/
def unionKeys (rs : List Dict) : List String :=
  rs.foldl (fun acc r => (recordKeys r).foldl addKey acc) []

/-- A DataFrame built from a list of dicts: the column labels plus the
row records in order; the cell at row r and column c is the value of c
in r when present, and a missing value (NaN) otherwise, which lookupKey
models with none. -/
structure DataFrame where
  columns : List String
  rows : List Dict

/-- pandas DataFrame(records). -/
def mkDataFrame (records : List Dict) : DataFrame :=
  ⟨unionKeys records, records⟩

/-- Column selection df[cols]: pandas raises a KeyError when any requested
label is absent from the frame's columns; otherwise the result has
exactly the requested columns in the requested order and the same rows.
A record that lacks one of the selected keys keeps a missing cell, it
does not raise. -/
def selectColumns (df : DataFrame) (cols : List String) : Option DataFrame :=
  if cols.all (fun c => df.columns.contains c) then some ⟨cols, df.rows⟩ else none

/-- The allow-list of line 49 of the script, in order. -/
def keep_columns : List String :=
  ["observation_id", "id", "created_at", "updated_at",
   "native_page_url", "native_username", "license", "subtype",
   "native_original_image_url",
   "license_code", "attribution", "license_name", "license_url",
   "type", "original_size_url"]

/-- The rename mapping of line 56 of the script. -/
def rename_columns : List (String × String) :=
  [("id", "photo_id"),
   ("native_page_url", "inaturalist_page_url"),
   ("native_username", "inaturalist_username"),
   ("native_original_image_url", "original_image_url"),
   ("original_size_url", "image_url")]

/-- df.rename(columns=rename_columns): labels in the mapping change, the
others stay; rows are untouched. -/
def renameColumns (df : DataFrame) : DataFrame :=
  ⟨df.columns.map (fun c => (List.lookup c rename_columns).getD c), df.rows⟩

/-- The export phase (lines 63 to 66): build the frame, project onto the
allow-list, rename. none models the KeyError that kills the run. The
to_csv call writes this frame with no index column. -/
def exportMetadata (images : List Dict) : Option DataFrame :=
  (selectColumns (mkDataFrame images) keep_columns).map renameColumns

/-! ### The download phase -/

/-- Python str() of the values that can appear in the formatted file name;
str(None) is the text None, integers print in decimal. Composite
values never reach the format call in this script. -/
def fmtVal : Val → String
  | Val.vnull => "None"
  | Val.vnum n => toString n
  | Val.vstr s => s
  | Val.vlist _ => "<list>"
  | Val.vdict _ => "<dict>"

/-- Python truthiness of a JSON value, for the guard of line 84. -/
def truthy : Val → Bool
  | Val.vnull => false
  | Val.vnum n => n ≠ 0
  | Val.vstr s => s ≠ ""
  | Val.vlist l => !l.isEmpty
  | Val.vdict d => !d.isEmpty

/-- The file path of line 82, built from the record's observation_id and
id with the default Unknown of the get calls. -/
def imagePath (image : Dict) : String :=
  "images/observation" ++ fmtVal (getD image "observation_id" (Val.vstr "Unknown")) ++
    "_image" ++ fmtVal (getD image "id" (Val.vstr "Unknown")) ++ ".jpg"

/-- State of the download loop: the urlretrieve calls performed so far as
url and target path pairs, the file name computed for every visited
record (the script builds image_name before testing the url), the
counter, and the progress lines printed. -/
structure DlState where
  downloads : List (String × String)
  visited : List String
  image_counter : Nat
  printed : List String

/-- One iteration of the download loop (lines 79 to 90). -/
def downloadStep (total : Nat) (st : DlState) (image : Dict) : DlState :=
  let image_name := imagePath image
  let image_url := getD image "original_size_url" Val.vnull
  let downloads :=
    if truthy image_url then st.downloads ++ [(fmtVal image_url, image_name)]
    else st.downloads
  let image_counter := st.image_counter + 1
  let printed :=
    if image_counter % 10 = 0 then
      st.printed ++ ["Retrieved " ++ toString image_counter ++ " of " ++
        toString total ++ " images"]
    else st.printed
  ⟨downloads, st.visited ++ [image_name], image_counter, printed⟩

/-- The download loop over the accumulated record sequence. -/
def downloadRun (images : List Dict) : DlState :=
  images.foldl (downloadStep images.length) ⟨[], [], 0, []⟩

/-- The urlretrieve calls the download phase performs, in order. -/
def downloadPhase (images : List Dict) : List (String × String) :=
  (downloadRun images).downloads

/-! ### The filesystem effect of urlretrieve -/

/-- The images directory as a mapping from file path to content. -/
abbrev FileSys := List (String × String)

/-- Content of a path. -/
def lookupFile : FileSys → String → Option String
  | [], _ => none
  | (p', c) :: rest, p => if p' = p then some c else lookupFile rest p

/-- urllib.request.urlretrieve(url, name) writes the fetched content to
name, silently overwriting an existing file of that name. -/
def writeFile (p c : String) : FileSys → FileSys
  | [] => [(p, c)]
  | (p', c') :: rest => if p' = p then (p, c) :: rest else (p', c') :: writeFile p c rest

/-- Apply the download list to a filesystem, fetch giving each url's
content. -/
def applyDownloads (fetch : String → String) (fs : FileSys) (dls : List (String × String)) : FileSys :=
  dls.foldl (fun fs uc => writeFile uc.2 (fetch uc.1) fs) fs

/-! ### The whole run -/

/-- Observable outcome of one run of the script. -/
structure RunResult where
  printed : List String
  apiRequests : List String
  metadataFile : Option DataFrame
  imagesDirEnsured : Bool
  downloads : List (String × String)
  aborted : Bool

/-- The whole script as a function of the id column of observations.csv
(none when the file is missing), the HTTP responses, and whether the
images directory already exists. aborted is true when an unhandled
exception kills the run; the missing-file branch prints its message and
exits cleanly before any fetch, any metadata write, and any directory
creation. -/
def runProgram (obsFile : Option (List Int)) (resp : Int → Val) (imagesDirExists : Bool) : RunResult :=
  match obsFile with
  | none =>
    ⟨["Could not find observations.csv. Program is now quitting."],
     [], none, false, [], false⟩
  | some obs_ids =>
    let p0 := ["Retrieving photo data for " ++ toString obs_ids.length ++ " observations"]
    let fetched := fetchImages resp obs_ids
    match fetched.2 with
    | none => ⟨p0, fetched.1, none, false, [], true⟩
    | some images =>
      let p1 := p0 ++ ["Data retrieved for " ++ toString images.length ++
        " photos. Exporting to image_metadata.csv"]
      match exportMetadata images with
      | none => ⟨p1, fetched.1, none, false, [], true⟩
      | some df =>
        let p2 := p1 ++
          [if imagesDirExists then "Images directory already exists."
           else "Created images directory."] ++
          ["Retrieving " ++ toString images.length ++ " images"]
        let st := downloadRun images
        ⟨p2 ++ st.printed ++
           ["Done, " ++ toString images.length ++ " of " ++
             toString images.length ++ " images have been retrieved"],
         fetched.1, some df, true, st.downloads, false⟩

/-! ### Concrete sample data, used to instantiate the theorems -/

/-- Twenty observation ids, 100 to 119. -/
def sampleIds : List Int := (List.range 20).map (fun n => (100 : Int) + n)

/-- A nested photo object holding every field of the allow-list that the
API supplies (observation_id comes from the wrapper and
original_size_url is derived). -/
def samplePhoto : Dict :=
  [("id", Val.vnum 5),
   ("created_at", Val.vstr "2019-01-01"),
   ("updated_at", Val.vstr "2019-01-02"),
   ("native_page_url", Val.vstr "https://www.inaturalist.org/photos/5"),
   ("native_username", Val.vstr "someone"),
   ("license", Val.vnum 2),
   ("subtype", Val.vnull),
   ("native_original_image_url", Val.vnull),
   ("license_code", Val.vstr "cc-by-nc"),
   ("attribution", Val.vstr "(c) someone"),
   ("license_name", Val.vstr "Creative Commons"),
   ("license_url", Val.vstr "https://creativecommons.org/licenses/by-nc/4.0/"),
   ("type", Val.vstr "LocalPhoto"),
   ("large_url", Val.vstr "https://static.inaturalist.org/photos/5/large.jpg")]

/-- A well-formed API response: one photo wrapper per observation. -/
def sampleResp : Int → Val := fun i =>
  Val.vdict [("observation_photos",
    Val.vlist [Val.vdict [("observation_id", Val.vnum i), ("photo", Val.vdict samplePhoto)]])]

/-- The record mkPhotoData builds from the sample response for
observation i. -/
def sampleRecord (i : Int) : Dict :=
  [("observation_id", Val.vnum i)] ++ samplePhoto ++
    [("original_size_url", Val.vstr "https://static.inaturalist.org/photos/5/original.jpg")]

example : mkPhotoData [("observation_id", Val.vnum 3), ("photo", Val.vdict samplePhoto)] =
    some (sampleRecord 3) := rfl

/-! ### Helper lemmas -/

theorem pySlice_length {α : Type} (a b : Nat) (l : List α) (h : b ≤ l.length) :
    (pySlice a b l).length = b - a := by
  simp only [pySlice, List.length_take, List.length_drop]
  omega

theorem pySlice_getD {α : Type} (a b i : Nat) (l : List α) (d : α) (h : i < b - a) :
    (pySlice a b l).getD i d = l.getD (a + i) d := by
  simp only [pySlice, List.getD_eq_getElem?_getD, List.getElem?_take_of_lt h,
    List.getElem?_drop]

theorem lookupKey_eq_none_iff (r : Dict) (k : String) :
    lookupKey r k = none ↔ k ∉ recordKeys r := by
  induction r with
  | nil => simp [lookupKey, recordKeys]
  | cons kv rest ih =>
    obtain ⟨k', v⟩ := kv
    by_cases hk : k' = k
    · subst hk
      simp [lookupKey, recordKeys]
    · simp [lookupKey, recordKeys, hk, ih, Ne.symm hk]

theorem mem_foldl_addKey (keys : List String) (acc : List String) (k : String) :
    k ∈ keys.foldl addKey acc ↔ k ∈ acc ∨ k ∈ keys := by
  induction keys generalizing acc with
  | nil => simp
  | cons k' rest ih =>
    simp only [List.foldl_cons, ih, addKey]
    by_cases h : k' ∈ acc
    · simp only [if_pos h, List.mem_cons]
      constructor
      · rintro (ha | hr)
        · exact Or.inl ha
        · exact Or.inr (Or.inr hr)
      · rintro (ha | rfl | hr)
        · exact Or.inl ha
        · exact Or.inl h
        · exact Or.inr hr
    · simp only [if_neg h, List.mem_append, List.mem_singleton, List.mem_cons]
      tauto

theorem mem_unionKeys (rs : List Dict) (k : String) :
    k ∈ unionKeys rs ↔ ∃ r ∈ rs, k ∈ recordKeys r := by
  have general : ∀ (rs : List Dict) (acc : List String),
      k ∈ rs.foldl (fun acc r => (recordKeys r).foldl addKey acc) acc ↔
        k ∈ acc ∨ ∃ r ∈ rs, k ∈ recordKeys r := by
    intro rs
    induction rs with
    | nil => simp
    | cons r rest ih =>
      intro acc
      simp only [List.foldl_cons, ih, mem_foldl_addKey, List.mem_cons]
      constructor
      · rintro ((ha | hr) | ⟨r', hr', hk⟩)
        · exact Or.inl ha
        · exact Or.inr ⟨r, Or.inl rfl, hr⟩
        · exact Or.inr ⟨r', Or.inr hr', hk⟩
      · rintro (ha | ⟨r', (rfl | hr'), hk⟩)
        · exact Or.inl (Or.inl ha)
        · exact Or.inl (Or.inr hk)
        · exact Or.inr ⟨r', hr', hk⟩
  simpa using general rs []

theorem selectColumns_isSome_iff (df : DataFrame) (cols : List String) :
    (selectColumns df cols).isSome ↔ ∀ c ∈ cols, c ∈ df.columns := by
  simp only [selectColumns]
  by_cases h : cols.all (fun c => df.columns.contains c)
  · simp only [if_pos h, Option.isSome_some, true_iff]
    intro c hc
    have := (List.all_eq_true.mp h) c hc
    simpa [List.contains, List.elem_iff] using this
  · simp only [if_neg h, Option.isSome_none, Bool.false_eq_true, false_iff]
    intro hall
    exact h (List.all_eq_true.mpr (fun c hc => by
      simpa [List.contains, List.elem_iff] using hall c hc))

theorem downloadLoop_foldl (total : Nat) (images : List Dict) (st : DlState) :
    ((images.foldl (downloadStep total) st).downloads =
      st.downloads ++ images.filterMap (fun image =>
        if truthy (getD image "original_size_url" Val.vnull) then
          some (fmtVal (getD image "original_size_url" Val.vnull), imagePath image)
        else none)) ∧
    (images.foldl (downloadStep total) st).visited = st.visited ++ images.map imagePath := by
  induction images generalizing st with
  | nil => simp
  | cons image rest ih =>
    obtain ⟨h1, h2⟩ := ih (downloadStep total st image)
    refine ⟨?_, ?_⟩
    · rw [List.foldl_cons, h1, List.filterMap_cons]
      by_cases ht : truthy (getD image "original_size_url" Val.vnull)
      · simp [downloadStep, ht]
      · simp [downloadStep, ht]
    · rw [List.foldl_cons, h2]
      simp [downloadStep]

theorem fetchLoop_requests (resp : Int → Val) (l : List Int) :
    (∃ k, (fetchLoop resp l).1 = (l.map mkUrl).take k) ∧
    ((∀ i ∈ l, (processResponse (resp i)).isSome) →
      (fetchLoop resp l).1 = l.map mkUrl) := by
  induction l with
  | nil => exact ⟨⟨0, rfl⟩, fun _ => rfl⟩
  | cons idno rest ih =>
    obtain ⟨⟨k, hk⟩, hall⟩ := ih
    by_cases h : (processResponse (resp idno)).isSome
    · obtain ⟨photos, hp⟩ := Option.isSome_iff_exists.mp h
      refine ⟨⟨k + 1, ?_⟩, ?_⟩
      · simp [fetchLoop, hp, hk]
      · intro hmem
        have := hall (fun i hi => hmem i (List.mem_cons_of_mem _ hi))
        simp [fetchLoop, hp, this]
    · have hp : processResponse (resp idno) = none := Option.not_isSome_iff_eq_none.mp h
      refine ⟨⟨1, ?_⟩, ?_⟩
      · simp [fetchLoop, hp]
      · intro hmem
        exact absurd (hmem idno (List.mem_cons_self _ _)) h

/-! ### The claims -/

/-- C1: for an id column of at least 20 rows, the fetcher issues API
requests only for the observation identifiers at positions 10 through
19 of the id sequence, in that order, and for no other positions: the
iterated slice has exactly 10 elements, its element i is the id at
position 10 + i, the issued requests are always an order-preserving
prefix of the URLs of that slice, and when every response is
well-formed they are exactly those URLs. -/
theorem fetcher_iterates_slice_10_20 (ids : List Int) (resp : Int → Val)
    (h : 20 ≤ ids.length) :
    (pySlice 10 20 ids).length = 10 ∧
    (∀ i, i < 10 → (pySlice 10 20 ids).getD i 0 = ids.getD (10 + i) 0) ∧
    (∃ k, (fetchImages resp ids).1 = ((pySlice 10 20 ids).map mkUrl).take k) ∧
    ((∀ idno ∈ pySlice 10 20 ids, (processResponse (resp idno)).isSome) →
      (fetchImages resp ids).1 = (pySlice 10 20 ids).map mkUrl) := by
  obtain ⟨hpre, hfull⟩ := fetchLoop_requests resp (pySlice 10 20 ids)
  exact ⟨pySlice_length 10 20 ids h,
    fun i hi => pySlice_getD 10 20 i ids 0 (by omega), hpre, hfull⟩

theorem fetcher_iterates_slice_10_20_witness :
    (pySlice 10 20 sampleIds).length = 10 ∧
    (∀ i, i < 10 → (pySlice 10 20 sampleIds).getD i 0 = sampleIds.getD (10 + i) 0) ∧
    (∃ k, (fetchImages sampleResp sampleIds).1 = ((pySlice 10 20 sampleIds).map mkUrl).take k) ∧
    ((∀ idno ∈ pySlice 10 20 sampleIds, (processResponse (sampleResp idno)).isSome) →
      (fetchImages sampleResp sampleIds).1 = (pySlice 10 20 sampleIds).map mkUrl) :=
  fetcher_iterates_slice_10_20 sampleIds sampleResp (by decide)

/-- C2: original_size_url is derived from large_url by the large to
original substitution: with large_url equal to https://x/large.jpg the
derived field is https://x/original.jpg, with no large_url field in
the nested photo object the derived field is the empty string, and in
general the derived field is the replace of the large_url string. -/
theorem original_size_url_derivation (oid v1 v2 : Val) :
    (∃ pd, mkPhotoData [("observation_id", oid),
        ("photo", Val.vdict [("id", v1), ("large_url", Val.vstr "https://x/large.jpg"),
          ("license", v2)])] = some pd ∧
      lookupKey pd "original_size_url" = some (Val.vstr "https://x/original.jpg")) ∧
    (∃ pd, mkPhotoData [("observation_id", oid),
        ("photo", Val.vdict [("id", v1), ("license", v2)])] = some pd ∧
      lookupKey pd "original_size_url" = some (Val.vstr "")) ∧
    (∀ s : String, ∃ pd, mkPhotoData [("observation_id", oid),
        ("photo", Val.vdict [("id", v1), ("large_url", Val.vstr s), ("license", v2)])] = some pd ∧
      lookupKey pd "original_size_url" = some (Val.vstr (pyReplace s "large" "original"))) :=
  ⟨⟨_, rfl, rfl⟩, ⟨_, rfl, rfl⟩, fun _ => ⟨_, rfl, rfl⟩⟩

/-- C9: in the record merge, the nested photo object's observation_id
overwrites the wrapper's value, and the derived original_size_url,
written after the merge, overwrites a field of that name coming from
the nested photo object. -/
theorem photo_merge_precedence (v1 v2 w : Val) (s : String) :
    ∃ pd, mkPhotoData [("observation_id", v1),
        ("photo", Val.vdict [("observation_id", v2), ("large_url", Val.vstr s),
          ("original_size_url", w)])] = some pd ∧
      lookupKey pd "observation_id" = some v2 ∧
      lookupKey pd "original_size_url" = some (Val.vstr (pyReplace s "large" "original")) :=
  ⟨_, rfl, rfl, rfl⟩

/-- A photo wrapper whose large_url holds the text large in the host, in a
directory name and in the file name. -/
def largeEverywhereWrapper : Dict :=
  [("observation_id", Val.vnum 1),
   ("photo", Val.vdict [("id", Val.vnum 2),
     ("large_url", Val.vstr "https://www.largesite.org/large_photos/12/large.jpg")])]

/-- Occurrence count of a pattern with the same non-overlapping
left-to-right scan as the replace method. -/
def countOccur (pat : List Char) : Nat → List Char → Nat
  | 0, _ => 0
  | _ + 1, [] => 0
  | fuel + 1, c :: rest =>
    if pat.isPrefixOf (c :: rest) then
      1 + countOccur pat fuel (List.drop (pat.length - 1) rest)
    else
      countOccur pat fuel rest

/-- Number of non-overlapping occurrences of pat in s. -/
def countSub (s pat : String) : Nat := countOccur pat.data s.data.length s.data

/-- C10: the substitution rewrites every occurrence of the text large in
large_url, not only the size keyword of the file name: a URL with
large in the host, the directory and the file name has all three
occurrences rewritten, leaving none and producing three occurrences of
original. -/
theorem replace_rewrites_all_occurrences :
    (∃ pd, mkPhotoData largeEverywhereWrapper = some pd ∧
      lookupKey pd "original_size_url" =
        some (Val.vstr "https://www.originalsite.org/original_photos/12/original.jpg")) ∧
    countSub "https://www.largesite.org/large_photos/12/large.jpg" "large" = 3 ∧
    countSub "https://www.originalsite.org/original_photos/12/original.jpg" "large" = 0 ∧
    countSub "https://www.originalsite.org/original_photos/12/original.jpg" "original" = 3 :=
  ⟨⟨_, rfl, rfl⟩, rfl, rfl, rfl⟩

/-- A record with every allow-list field plus an extra field the API may
also return. -/
def extraRecord : Dict := sampleRecord 4 ++ [("flags", Val.vlist [])]

/-- C3: for a non-empty record sequence in which every record carries the
allow-list fields, the export succeeds and the written table has
exactly the 15 columns of the fixed rename order, whatever extra
fields the records carry, and its rows are the records themselves. -/
theorem export_fixed_15_columns (images : List Dict) (hne : images ≠ [])
    (h : ∀ r ∈ images, ∀ c ∈ keep_columns, c ∈ recordKeys r) :
    ∃ df, exportMetadata images = some df ∧
      df.columns = ["observation_id", "photo_id", "created_at", "updated_at",
        "inaturalist_page_url", "inaturalist_username", "license", "subtype",
        "original_image_url", "license_code", "attribution", "license_name",
        "license_url", "type", "image_url"] ∧
      df.columns.length = 15 ∧ df.rows = images := by
  have hcond : keep_columns.all (fun c => (mkDataFrame images).columns.contains c) = true := by
    rw [List.all_eq_true]
    intro c hc
    obtain ⟨r, rest, rfl⟩ := List.exists_cons_of_ne_nil hne
    have hm : c ∈ unionKeys (r :: rest) :=
      (mem_unionKeys _ c).mpr ⟨r, List.mem_cons_self _ _, h r (List.mem_cons_self _ _) c hc⟩
    simpa [mkDataFrame, List.contains, List.elem_iff] using hm
  refine ⟨renameColumns ⟨keep_columns, images⟩, ?_, ?_, ?_, rfl⟩
  · simp only [exportMetadata, selectColumns, hcond, if_pos, Option.map_some']
    rfl
  · rfl
  · rfl

theorem export_fixed_15_columns_witness :
    ∃ df, exportMetadata [sampleRecord 3, extraRecord] = some df ∧
      df.columns = ["observation_id", "photo_id", "created_at", "updated_at",
        "inaturalist_page_url", "inaturalist_username", "license", "subtype",
        "original_image_url", "license_code", "attribution", "license_name",
        "license_url", "type", "image_url"] ∧
      df.columns.length = 15 ∧ df.rows = [sampleRecord 3, extraRecord] :=
  export_fixed_15_columns [sampleRecord 3, extraRecord]
    (List.cons_ne_nil _ _) (by decide)

/-- C4, counterexample to the claim as stated: a sequence holding a full
record and a record with no license field (license is on the
allow-list) exports fine, because pandas takes the column set from the
union of the record keys and fills the missing cell with NaN; the
projection does not fail. -/
theorem projection_missing_field_counterexample :
    "license" ∈ keep_columns ∧
    lookupKey [("observation_id", Val.vnum 4)] "license" = none ∧
    (exportMetadata [sampleRecord 3, [("observation_id", Val.vnum 4)]]).isSome = true :=
  ⟨by decide, rfl, rfl⟩

/-- C4, amended: the export projection fails exactly when some allow-list
field is absent from every accumulated record (so from the union of
the record keys); a record that lacks a field another record supplies
yields a missing cell, not an error. -/
theorem projection_fails_iff_field_absent_from_all (images : List Dict) :
    exportMetadata images = none ↔
      ∃ c ∈ keep_columns, ∀ r ∈ images, lookupKey r c = none := by
  have h1 : exportMetadata images = none ↔
      selectColumns (mkDataFrame images) keep_columns = none := by
    simp [exportMetadata, Option.map_eq_none']
  rw [h1, ← Option.not_isSome_iff_eq_none, selectColumns_isSome_iff]
  constructor
  · intro hnot
    push_neg at hnot
    obtain ⟨c, hc, hcu⟩ := hnot
    refine ⟨c, hc, fun r hr => ?_⟩
    rw [lookupKey_eq_none_iff]
    intro hk
    exact hcu ((mem_unionKeys images c).mpr ⟨r, hr, hk⟩)
  · rintro ⟨c, hc, hall⟩ hmem
    obtain ⟨r, hr, hk⟩ := (mem_unionKeys images c).mp (hmem c hc)
    exact (lookupKey_eq_none_iff r c).mp (hall r hr) hk

/-- Substring test on the character lists of two strings. -/
def containsSubAux (pat : List Char) : List Char → Bool
  | [] => pat.isEmpty
  | c :: rest => pat.isPrefixOf (c :: rest) || containsSubAux pat rest

/-- Whether pat occurs as a contiguous substring of s. -/
def containsSub (s pat : String) : Bool :=
  containsSubAux pat.data s.data

/-- C5: with observations.csv absent, the run prints a message containing
the text Could not find observations.csv and stops cleanly: no API
request is issued, no metadata file is written, the images directory
is not created, no download happens, and the stop is a clean exit,
not a crash. -/
theorem missing_input_stops_early (resp : Int → Val) (dirExists : Bool) :
    (∃ msg ∈ (runProgram none resp dirExists).printed,
      containsSub msg "Could not find observations.csv" = true) ∧
    (runProgram none resp dirExists).apiRequests = [] ∧
    (runProgram none resp dirExists).metadataFile = none ∧
    (runProgram none resp dirExists).imagesDirEnsured = false ∧
    (runProgram none resp dirExists).downloads = [] ∧
    (runProgram none resp dirExists).aborted = false :=
  ⟨⟨"Could not find observations.csv. Program is now quitting.",
    List.mem_cons_self _ _, rfl⟩, rfl, rfl, rfl, rfl, rfl⟩

/-- C6: the download loop performs one urlretrieve per record whose
original_size_url is a non-empty string, at that URL, writing to the
path built as images/observation then the record's observation_id then
the text _image then the record's id then the extension jpg; a record
whose original_size_url is the empty string or absent produces no
download. The records are assumed to carry a string url or none at
all, which is what the fetch phase guarantees. -/
theorem download_url_and_path (images : List Dict)
    (h : ∀ image ∈ images, lookupKey image "original_size_url" = none ∨
      ∃ u, lookupKey image "original_size_url" = some (Val.vstr u)) :
    downloadPhase images = images.filterMap (fun image =>
      match lookupKey image "original_size_url" with
      | some (Val.vstr u) =>
        if u = "" then none
        else some (u, "images/observation" ++
          fmtVal (getD image "observation_id" (Val.vstr "Unknown")) ++ "_image" ++
          fmtVal (getD image "id" (Val.vstr "Unknown")) ++ ".jpg")
      | _ => none) := by
  have base := (downloadLoop_foldl images.length images ⟨[], [], 0, []⟩).1
  rw [downloadPhase, downloadRun, base]
  simp only [List.nil_append]
  apply List.filterMap_congr
  intro image him
  rcases h image him with hnone | ⟨u, hu⟩
  · simp [hnone, getD, truthy]
  · rcases eq_or_ne u "" with rfl | hne
    · simp [hu, getD, truthy]
    · simp [hu, getD, truthy, hne, imagePath, fmtVal]

/-- A record with an empty original_size_url. -/
def emptyUrlRecord : Dict :=
  [("observation_id", Val.vnum 8), ("id", Val.vnum 6), ("original_size_url", Val.vstr "")]

/-- A record with no original_size_url at all. -/
def noUrlRecord : Dict := [("observation_id", Val.vnum 9), ("id", Val.vnum 7)]

theorem download_url_and_path_witness :
    downloadPhase [sampleRecord 7, emptyUrlRecord, noUrlRecord] =
      [("https://static.inaturalist.org/photos/5/original.jpg",
        "images/observation7_image5.jpg")] :=
  (download_url_and_path [sampleRecord 7, emptyUrlRecord, noUrlRecord]
    (by
      intro image him
      simp only [List.mem_cons, List.not_mem_nil, or_false] at him
      rcases him with rfl | rfl | rfl
      · exact Or.inr ⟨"https://static.inaturalist.org/photos/5/original.jpg", rfl⟩
      · exact Or.inr ⟨"", rfl⟩
      · exact Or.inl rfl)).trans rfl

/-- C7: a pre-existing images directory does not change the outcome of
the run: the downloads, the metadata table and the abort flag are the
same as on a fresh directory; when the run reaches the directory step
it just logs that the directory already exists; and a download whose
file name collides with an existing file overwrites it. -/
theorem rerun_with_existing_dir (obsFile : Option (List Int)) (resp : Int → Val) :
    ((runProgram obsFile resp true).downloads = (runProgram obsFile resp false).downloads ∧
     (runProgram obsFile resp true).metadataFile = (runProgram obsFile resp false).metadataFile ∧
     (runProgram obsFile resp true).aborted = (runProgram obsFile resp false).aborted) ∧
    ((runProgram obsFile resp true).metadataFile.isSome →
      "Images directory already exists." ∈ (runProgram obsFile resp true).printed) ∧
    (∀ (fs : FileSys) (p c : String), lookupFile (writeFile p c fs) p = some c) := by
  have hwrite : ∀ (fs : FileSys) (p c : String), lookupFile (writeFile p c fs) p = some c := by
    intro fs p c
    induction fs with
    | nil => simp [writeFile, lookupFile]
    | cons pc rest ih =>
      obtain ⟨p', c'⟩ := pc
      by_cases hp : p' = p
      · simp [writeFile, lookupFile, hp]
      · simp [writeFile, lookupFile, hp, ih]
  refine ⟨?_, ?_, hwrite⟩
  · cases obsFile with
    | none => exact ⟨rfl, rfl, rfl⟩
    | some ids =>
      rcases hf : (fetchImages resp ids).2 with _ | images
      · simp [runProgram, hf]
      · rcases he : exportMetadata images with _ | df
        · simp [runProgram, hf, he]
        · simp [runProgram, hf, he]
  · cases obsFile with
    | none => intro hsome; simp [runProgram] at hsome
    | some ids =>
      intro hsome
      rcases hf : (fetchImages resp ids).2 with _ | images
      · simp [runProgram, hf] at hsome
      · rcases he : exportMetadata images with _ | df
        · simp [runProgram, hf, he] at hsome
        · simp [runProgram, hf, he]

theorem rerun_with_existing_dir_witness :
    "Images directory already exists." ∈
      (runProgram (some sampleIds) sampleResp true).printed :=
  (rerun_with_existing_dir (some sampleIds) sampleResp).2.1 rfl

/-- C8: the export row order and the download visit order are both the
order of the one in-memory record sequence, walked twice without any
reordering, insertion or removal: the exported frame's rows are the
sequence itself, the download loop computes a file name for the
records in sequence order, and the urlretrieve calls are the
order-preserving selection of the records with a truthy url. -/
theorem export_and_download_same_order (images : List Dict) (df : DataFrame)
    (h : exportMetadata images = some df) :
    df.rows = images ∧
    (downloadRun images).visited = images.map imagePath ∧
    (downloadRun images).downloads = images.filterMap (fun image =>
      if truthy (getD image "original_size_url" Val.vnull) then
        some (fmtVal (getD image "original_size_url" Val.vnull), imagePath image)
      else none) := by
  obtain ⟨hdl, hvis⟩ := downloadLoop_foldl images.length images ⟨[], [], 0, []⟩
  refine ⟨?_, by simpa [downloadRun] using hvis, by simpa [downloadRun] using hdl⟩
  obtain ⟨df0, hsel, rfl⟩ := Option.map_eq_some'.mp h
  unfold selectColumns at hsel
  split at hsel
  · cases hsel
    rfl
  · cases hsel

/-- The frame the export writes for the single sample record. -/
def sampleFrame : DataFrame :=
  ⟨["observation_id", "photo_id", "created_at", "updated_at",
    "inaturalist_page_url", "inaturalist_username", "license", "subtype",
    "original_image_url", "license_code", "attribution", "license_name",
    "license_url", "type", "image_url"], [sampleRecord 3]⟩

theorem export_and_download_same_order_witness :
    sampleFrame.rows = [sampleRecord 3] ∧
    (downloadRun [sampleRecord 3]).visited = [sampleRecord 3].map imagePath ∧
    (downloadRun [sampleRecord 3]).downloads = [sampleRecord 3].filterMap (fun image =>
      if truthy (getD image "original_size_url" Val.vnull) then
        some (fmtVal (getD image "original_size_url" Val.vnull), imagePath image)
      else none) :=
  export_and_download_same_order [sampleRecord 3] sampleFrame rfl

end GGI
